import Mathlib

/-!
Shallow embedding of the Allstacks MCP server (Allstacks/allstacks-mcp-server).

The repository is a thin API-gateway shim plus tool wrappers:
* `src/allstacks_mcp/client.py` — `AllstacksAPIClient` (HTTP Basic auth variant);
* `src/server.py` — a second `AllstacksAPIClient` (bearer-token variant) and tools;
* `src/allstacks_mcp/tools/*.py` — tool wrappers that build (method, endpoint,
  params, body) and dispatch through the shim.

JSON values are modelled by an inductive `Json`; the network is modelled by an
oracle `HttpResult` describing what httpx delivers for the single request the
shim issues (a response with a status, raw text and the outcome of decoding the
body, or a raised transport exception carrying its message).  `json.loads` on
caller-supplied strings is modelled as an explicit decoding function argument,
since its implementation lives in the Python standard library, not in this
repository.  Each tool is embedded as a function producing a `ToolAction`:
either a local error returned without touching the network, or the single
outbound call (method, endpoint, query params, body) handed to the shim.
-/

/-- JSON values (numbers restricted to the integers actually used here). -/
inductive Json where
  | null
  | bool (b : Bool)
  | num (n : Int)
  | str (s : String)
  | arr (elems : List Json)
  | obj (fields : List (String × Json))

/-- Python-dict style field lookup on a JSON object (first match wins). -/
def Json.lookup : Json → String → Option Json
  | .obj fields, k => List.lookup k fields
  | _, _ => none

/-- Values allowed in an httpx query-parameter mapping. -/
inductive ParamValue where
  | str (s : String)
  | num (n : Int)
  | bool (b : Bool)
  | list (elems : List String)

/-- Python `str.lstrip('/')`: drop leading slashes. -/
def lstripSlash (s : String) : String :=
  String.mk (s.data.dropWhile (fun c => c == '/'))

/-- Python `str.rstrip('/')`: drop trailing slashes. -/
def rstripSlash (s : String) : String :=
  String.mk ((s.data.reverse.dropWhile (fun c => c == '/')).reverse)

/-- httpx renders one query entry; a list value becomes repeated `key=elem`
pairs joined by `&` (the `key[]=a&key[]=b` convention when the key carries a
bracket suffix).  Percent-encoding is not modelled. -/
def encodeParam (k : String) (v : ParamValue) : String :=
  match v with
  | .str s => k ++ "=" ++ s
  | .num n => k ++ "=" ++ toString n
  | .bool b => k ++ "=" ++ (if b then "true" else "false")
  | .list elems => String.intercalate "&" (elems.map (fun e => k ++ "=" ++ e))

/-- The query string httpx appends to the URL: empty for an empty mapping,
otherwise `?` followed by the `&`-joined entries. -/
def renderQuery (ps : List (String × ParamValue)) : String :=
  match ps with
  | [] => ""
  | _ => "?" ++ String.intercalate "&" (ps.map (fun kv => encodeParam kv.1 kv.2))

/-- The single outbound HTTP request the shim hands to httpx. -/
structure RequestDescriptor where
  method : String
  url : String
  auth : Option (String × String)
  headers : List (String × String)
  params : List (String × ParamValue)
  body : Option Json

/-- The wire-level URL including the query string. -/
def RequestDescriptor.fullUrl (r : RequestDescriptor) : String :=
  r.url ++ renderQuery r.params

/-- What httpx delivers for the issued request: a response (status code, raw
body text, and the result of `response.json()` — decoded value or the decode
exception's message), or a raised transport exception (`str(e)`). -/
inductive HttpResult where
  | ok (status : Nat) (text : String) (body : Except String Json)
  | exn (msg : String)

/-- httpx `response.is_success` / the condition under which
`raise_for_status()` does NOT raise: a 2xx status. -/
def isSuccessStatus (status : Nat) : Bool :=
  200 ≤ status && status < 300

namespace AllstacksMcp

/-- `allstacks_mcp/client.py`: client state after `__init__` (HTTP Basic auth
variant).  `base_url` stores the constructor argument already right-stripped of
slashes, as `__init__` does. -/
structure AllstacksAPIClient where
  username : String
  password : String
  base_url : String

/-- `AllstacksAPIClient.__init__(username, password, base_url)`. -/
def AllstacksAPIClient.init (username password base_url : String) :
    AllstacksAPIClient :=
  { username := username, password := password
    base_url := rstripSlash base_url }

/-- `self.auth = (username, password)`. -/
def AllstacksAPIClient.auth (c : AllstacksAPIClient) : String × String :=
  (c.username, c.password)

/-- `self.headers` set in `__init__`. -/
def AllstacksAPIClient.headers (_c : AllstacksAPIClient) :
    List (String × String) :=
  [("Content-Type", "application/json"), ("Accept", "application/json")]

/-- The arguments `request` passes to `client.request(...)`: the outbound
request descriptor, with `url = f"{self.base_url}/{endpoint.lstrip('/')}"`. -/
def AllstacksAPIClient.buildRequest (c : AllstacksAPIClient) (method endpoint : String)
    (params : List (String × ParamValue)) (data : Option Json) :
    RequestDescriptor :=
  { method := method
    url := c.base_url ++ "/" ++ lstripSlash endpoint
    auth := some c.auth
    headers := c.headers
    params := params
    body := data }

/-- The value `AllstacksAPIClient.request` returns to its caller, as a function
of the network outcome `net`:
* try-branch: `raise_for_status()` passes on a 2xx status and the decoded
  `response.json()` is returned verbatim;
* `except httpx.HTTPStatusError`: non-2xx status gives
  `{"error": True, "status_code": ..., "message": f"HTTP error: {text}"}`;
* `except Exception` (transport failure, or `response.json()` raising on a
  2xx response): `{"error": True, "message": f"Request failed: {str(e)}"}`. -/
def AllstacksAPIClient.request (_c : AllstacksAPIClient)
    (_method _endpoint : String) (_params : List (String × ParamValue))
    (_data : Option Json) (net : HttpResult) : Json :=
  match net with
  | .ok status text body =>
      if isSuccessStatus status then
        match body with
        | .ok j => j
        | .error e =>
            Json.obj [("error", Json.bool true),
                      ("message", Json.str ("Request failed: " ++ e))]
      else
        Json.obj [("error", Json.bool true),
                  ("status_code", Json.num status),
                  ("message", Json.str ("HTTP error: " ++ text))]
  | .exn e =>
      Json.obj [("error", Json.bool true),
                ("message", Json.str ("Request failed: " ++ e))]

end AllstacksMcp

namespace Server

/-- `src/server.py`: client state after `__init__` (bearer-token variant). -/
structure AllstacksAPIClient where
  token : String
  base_url : String

/-- `AllstacksAPIClient.__init__(token, base_url)` from `server.py`. -/
def AllstacksAPIClient.init (token base_url : String) : AllstacksAPIClient :=
  { token := token, base_url := rstripSlash base_url }

/-- `self.headers` set in `server.py`'s `__init__`: the bearer credential plus
the two static content-negotiation headers. -/
def AllstacksAPIClient.headers (c : AllstacksAPIClient) :
    List (String × String) :=
  [("Authorization", "Bearer " ++ c.token),
   ("Content-Type", "application/json"),
   ("Accept", "application/json")]

/-- The outbound request `server.py`'s `request` hands to httpx (no separate
auth tuple; the credential travels in the headers). -/
def AllstacksAPIClient.buildRequest (c : AllstacksAPIClient) (method endpoint : String)
    (params : List (String × ParamValue)) (data : Option Json) :
    RequestDescriptor :=
  { method := method
    url := c.base_url ++ "/" ++ lstripSlash endpoint
    auth := none
    headers := c.headers
    params := params
    body := data }

/-- The value `server.py`'s `AllstacksAPIClient.request` returns; the
try/except structure is identical to the `client.py` variant. -/
def AllstacksAPIClient.request (_c : AllstacksAPIClient)
    (_method _endpoint : String) (_params : List (String × ParamValue))
    (_data : Option Json) (net : HttpResult) : Json :=
  match net with
  | .ok status text body =>
      if isSuccessStatus status then
        match body with
        | .ok j => j
        | .error e =>
            Json.obj [("error", Json.bool true),
                      ("message", Json.str ("Request failed: " ++ e))]
      else
        Json.obj [("error", Json.bool true),
                  ("status_code", Json.num status),
                  ("message", Json.str ("HTTP error: " ++ text))]
  | .exn e =>
      Json.obj [("error", Json.bool true),
                ("message", Json.str ("Request failed: " ++ e))]

end Server

/-- The observable effect of invoking one tool wrapper: either a local error
payload returned to the caller without any network activity, or the single
shim invocation `api_client.request(method, endpoint, params, data)`. -/
inductive ToolAction where
  | localError (payload : Json)
  | call (method endpoint : String) (params : List (String × ParamValue))
      (data : Option Json)

/-- Whether the tool invocation reaches the network (issues a shim call). -/
def ToolAction.isCall : ToolAction → Bool
  | .call _ _ _ _ => true
  | .localError _ => false

/-- The query-parameter mapping of the issued call (empty for a local error). -/
def ToolAction.params : ToolAction → List (String × ParamValue)
  | .call _ _ ps _ => ps
  | .localError _ => []

/-- The JSON body of the issued call (none for a local error). -/
def ToolAction.body : ToolAction → Option Json
  | .call _ _ _ d => d
  | .localError _ => none

/-- The Python idiom `if v: params[k] = v` for an optional string argument
(`None` and `""` are falsy). -/
def addStrOpt (ps : List (String × ParamValue)) (k : String)
    (v : Option String) : List (String × ParamValue) :=
  match v with
  | some s => if s = "" then ps else ps ++ [(k, ParamValue.str s)]
  | none => ps

/-- The Python idiom `if v: params[k] = v` for an optional integer argument
(`None` and `0` are falsy). -/
def addIntOpt (ps : List (String × ParamValue)) (k : String)
    (v : Option Int) : List (String × ParamValue) :=
  match v with
  | some n => if n = 0 then ps else ps ++ [(k, ParamValue.num n)]
  | none => ps

/-- The Python idiom `if v is not None: params[k] = v` for an optional
integer argument. -/
def addIntIfNotNone (ps : List (String × ParamValue)) (k : String)
    (v : Option Int) : List (String × ParamValue) :=
  match v with
  | some n => ps ++ [(k, ParamValue.num n)]
  | none => ps

/-- Python `s.split(",")`: split on every comma (single-character
separator), keeping empty pieces. -/
def splitOnComma (s : String) : List String :=
  (s.data.splitOn ',').map String.mk

/-- The Python idiom `if v: params["k[]"] = v.split(",")` used for
comma-separated list arguments (`None` and `""` are falsy). -/
def addSplitOpt (ps : List (String × ParamValue)) (k : String)
    (v : Option String) : List (String × ParamValue) :=
  match v with
  | some s => if s = "" then ps else ps ++ [(k, ParamValue.list (splitOnComma s))]
  | none => ps

namespace Server

/-- `server.py list_metrics`: `params = {"org_id": org_id} if org_id else {}`,
then `GET metrics/`. -/
def list_metrics (org_id : Option Int) : ToolAction :=
  let params : List (String × ParamValue) :=
    match org_id with
    | some n => if n = 0 then [] else [("org_id", ParamValue.num n)]
    | none => []
  ToolAction.call "GET" "metrics/" params none

/-- `server.py get_gmdts_data`: four mandatory query entries, then
`dimensions`, `group_by`, `filters` attached only when truthy. -/
def get_gmdts_data (project_id : Int) (metric_type start_date end_date : String)
    (dimensions filters : Option String) (aggregation : String)
    (group_by : Option String) (limit : Int) : ToolAction :=
  let params : List (String × ParamValue) :=
    [("start_date", ParamValue.str start_date),
     ("end_date", ParamValue.str end_date),
     ("aggregation", ParamValue.str aggregation),
     ("limit", ParamValue.num limit)]
  let params := addStrOpt params "dimensions" dimensions
  let params := addStrOpt params "group_by" group_by
  let params := addStrOpt params "filters" filters
  ToolAction.call "GET" s!"project/{project_id}/metrics/gmdts/{metric_type}/"
    params none

/-- `server.py get_metrics_v2_data`: `json.loads(config)` guarded by
`except json.JSONDecodeError`, which returns
`{"error": "Invalid JSON in config parameter"}` without a shim call;
otherwise `POST` with body `{"config": config_dict}`.  `jsonLoads` models the
standard-library decoder. -/
def get_metrics_v2_data (jsonLoads : String → Except String Json)
    (project_id : Int) (config : String) : ToolAction :=
  match jsonLoads config with
  | .error _ =>
      ToolAction.localError
        (Json.obj [("error", Json.str "Invalid JSON in config parameter")])
  | .ok config_dict =>
      ToolAction.call "POST" s!"project/{project_id}/metrics/v2/data/" []
        (some (Json.obj [("config", config_dict)]))

/-- `server.py get_configuration_options`: `metric` and `item_types` attached
only when truthy. -/
def get_configuration_options (org_id : Int) (metric : Option Int)
    (item_types : Option String) : ToolAction :=
  let params : List (String × ParamValue) := []
  let params := addIntOpt params "metric" metric
  let params := addStrOpt params "item_types" item_types
  ToolAction.call "GET" s!"organization/{org_id}/configuration_options/"
    params none

end Server

namespace Metrics

/-- `allstacks_mcp/tools/metrics.py list_metrics`: `project_id` attached only
when truthy, then `GET metrics/`. -/
def list_metrics (project_id : Option Int) : ToolAction :=
  let params : List (String × ParamValue) := []
  let params := addIntOpt params "project_id" project_id
  ToolAction.call "GET" "metrics/" params none

end Metrics

namespace Alerts

/-- `allstacks_mcp/tools/alerts.py create_alert_rule`: `json.loads(condition)`
guarded by `except json.JSONDecodeError` →
`{"error": "Invalid JSON in condition parameter"}` without a shim call;
otherwise a body with the four mandatory keys plus `project_id` when truthy. -/
def create_alert_rule (jsonLoads : String → Except String Json) (org_id : Int)
    (name condition alert_type : String) (project_id : Option Int)
    (enabled : Bool) : ToolAction :=
  match jsonLoads condition with
  | .error _ =>
      ToolAction.localError
        (Json.obj [("error", Json.str "Invalid JSON in condition parameter")])
  | .ok condition_dict =>
      let data : List (String × Json) :=
        [("name", Json.str name),
         ("condition", condition_dict),
         ("alert_type", Json.str alert_type),
         ("enabled", Json.bool enabled)]
      let data :=
        match project_id with
        | some n => if n = 0 then data else data ++ [("project_id", Json.num n)]
        | none => data
      ToolAction.call "POST" s!"organization/{org_id}/alert_rules/" []
        (some (Json.obj data))

end Alerts

namespace Forecasting

/-- `allstacks_mcp/tools/forecasting.py get_forecast_v3`: two mandatory query
entries, then `work_bundle_ids` / `service_item_ids` split on commas under the
bracket-suffixed keys when truthy. -/
def get_forecast_v3 (project_id : Int)
    (work_bundle_ids service_item_ids : Option String)
    (confidence_level : Int) (time_zone : String) : ToolAction :=
  let params : List (String × ParamValue) :=
    [("confidence_level", ParamValue.num confidence_level),
     ("time_zone", ParamValue.str time_zone)]
  let params := addSplitOpt params "work_bundle_ids[]" work_bundle_ids
  let params := addSplitOpt params "service_item_ids[]" service_item_ids
  ToolAction.call "GET" s!"forecasting/{project_id}/v3/" params none

end Forecasting

namespace ServiceItems

/-- `allstacks_mcp/tools/service_items.py get_parent_service_items`: two
mandatory query entries, three comma-split bracket-key lists, truthiness- and
`is not None`-guarded scalars, and a comma-split `fields[]`. -/
def get_parent_service_items (project_id : Int)
    (parent_service_item_ids parent_service_item_types
      parent_service_item_groups : Option String)
    (service_id offset limit : Option Int) (time_zone : String)
    (parent_service_item_name order_by : Option String)
    (order_direction : String) (pin_filter : Option Int)
    (estimation_method_override fields : Option String) : ToolAction :=
  let params : List (String × ParamValue) :=
    [("time_zone", ParamValue.str time_zone),
     ("order_direction", ParamValue.str order_direction)]
  let params := addSplitOpt params "parent_service_item_ids[]" parent_service_item_ids
  let params := addSplitOpt params "parent_service_item_types[]" parent_service_item_types
  let params := addSplitOpt params "parent_service_item_groups[]" parent_service_item_groups
  let params := addIntOpt params "service_id" service_id
  let params := addIntIfNotNone params "offset" offset
  let params := addIntIfNotNone params "limit" limit
  let params := addStrOpt params "parent_service_item_name" parent_service_item_name
  let params := addStrOpt params "order_by" order_by
  let params := addIntIfNotNone params "pin_filter" pin_filter
  let params := addStrOpt params "estimation_method_override" estimation_method_override
  let params := addSplitOpt params "fields[]" fields
  ToolAction.call "GET" s!"project/{project_id}/parent_service_items/"
    params none

end ServiceItems

/-! Helper lemmas about slash-stripping and query rendering. -/

lemma dropWhile_slash_head (l : List Char) :
    ((l.dropWhile (fun c => c == '/')).head? ≠ some '/') := by
  induction l with
  | nil => simp
  | cons a t ih =>
    cases hab : a == '/' with
    | true => simpa [List.dropWhile, hab] using ih
    | false =>
        have h : a ≠ '/' := by simpa using hab
        simp [List.dropWhile, hab, h]

lemma lstripSlash_head (s : String) :
    (lstripSlash s).data.head? ≠ some '/' := by
  simpa [lstripSlash] using dropWhile_slash_head s.data

lemma rstripSlash_getLast (s : String) :
    (rstripSlash s).data.getLast? ≠ some '/' := by
  simpa [rstripSlash] using dropWhile_slash_head s.data.reverse

lemma string_append_empty (s : String) : s ++ "" = s := by
  cases s with
  | mk data => show String.mk (data ++ []) = String.mk data
               simp

/-- C1: for every method, endpoint, query mapping and body, and for both
client variants (`client.py` and `server.py`), `AllstacksAPIClient.request`
always produces a value for every network outcome: either the decoded JSON
body of a 2xx response, or an error record (with `error = true` and a string
`message`) produced by one of the two except-branches.  In the Python source
this totality rests on the try/except structure catching every `Exception`;
the embedding makes the result an explicit total function of the network
outcome. -/
theorem request_total_result (c1 : AllstacksMcp.AllstacksAPIClient)
    (c2 : Server.AllstacksAPIClient) (method endpoint : String)
    (params : List (String × ParamValue)) (data : Option Json)
    (net : HttpResult) :
    ((∃ status text j, net = HttpResult.ok status text (Except.ok j) ∧
        isSuccessStatus status = true ∧
        c1.request method endpoint params data net = j)
      ∨ ((c1.request method endpoint params data net).lookup "error"
            = some (Json.bool true) ∧
         ∃ m, (c1.request method endpoint params data net).lookup "message"
            = some (Json.str m)))
    ∧ ((∃ status text j, net = HttpResult.ok status text (Except.ok j) ∧
        isSuccessStatus status = true ∧
        c2.request method endpoint params data net = j)
      ∨ ((c2.request method endpoint params data net).lookup "error"
            = some (Json.bool true) ∧
         ∃ m, (c2.request method endpoint params data net).lookup "message"
            = some (Json.str m))) := by
  refine ⟨?_, ?_⟩
  · cases net with
    | exn e => exact Or.inr ⟨rfl, _, rfl⟩
    | ok status text body =>
      cases hs : isSuccessStatus status with
      | true =>
          cases body with
          | ok j =>
              exact Or.inl ⟨status, text, j, rfl, hs,
                by simp [AllstacksMcp.AllstacksAPIClient.request, hs]⟩
          | error e =>
              exact Or.inr ⟨by simp [AllstacksMcp.AllstacksAPIClient.request,
                  hs, Json.lookup, List.lookup],
                "Request failed: " ++ e,
                by simp [AllstacksMcp.AllstacksAPIClient.request, hs,
                  Json.lookup, List.lookup]⟩
      | false =>
          exact Or.inr ⟨by simp [AllstacksMcp.AllstacksAPIClient.request, hs,
              Json.lookup, List.lookup],
            "HTTP error: " ++ text,
            by simp [AllstacksMcp.AllstacksAPIClient.request, hs,
              Json.lookup, List.lookup]⟩
  · cases net with
    | exn e => exact Or.inr ⟨rfl, _, rfl⟩
    | ok status text body =>
      cases hs : isSuccessStatus status with
      | true =>
          cases body with
          | ok j =>
              exact Or.inl ⟨status, text, j, rfl, hs,
                by simp [Server.AllstacksAPIClient.request, hs]⟩
          | error e =>
              exact Or.inr ⟨by simp [Server.AllstacksAPIClient.request, hs,
                  Json.lookup, List.lookup],
                "Request failed: " ++ e,
                by simp [Server.AllstacksAPIClient.request, hs,
                  Json.lookup, List.lookup]⟩
      | false =>
          exact Or.inr ⟨by simp [Server.AllstacksAPIClient.request, hs,
              Json.lookup, List.lookup],
            "HTTP error: " ++ text,
            by simp [Server.AllstacksAPIClient.request, hs,
              Json.lookup, List.lookup]⟩

/-- C2: when the upstream responds with a non-success (non-2xx) status, both
client variants return `{"error": true, "status_code": <status>,
"message": "HTTP error: " ++ <response text>}`, so the message contains the
upstream body text as a suffix. -/
theorem request_http_status_error (c1 : AllstacksMcp.AllstacksAPIClient)
    (c2 : Server.AllstacksAPIClient) (method endpoint : String)
    (params : List (String × ParamValue)) (data : Option Json)
    (status : Nat) (text : String) (body : Except String Json)
    (h : isSuccessStatus status = false) :
    c1.request method endpoint params data (.ok status text body) =
      Json.obj [("error", Json.bool true),
                ("status_code", Json.num status),
                ("message", Json.str ("HTTP error: " ++ text))] ∧
    c2.request method endpoint params data (.ok status text body) =
      Json.obj [("error", Json.bool true),
                ("status_code", Json.num status),
                ("message", Json.str ("HTTP error: " ++ text))] ∧
    (∃ pre, "HTTP error: " ++ text = pre ++ text) := by
  refine ⟨?_, ?_, "HTTP error: ", rfl⟩
  · simp [AllstacksMcp.AllstacksAPIClient.request, h]
  · simp [Server.AllstacksAPIClient.request, h]

/-- Witness for C2 at a concrete 404 response. -/
theorem request_http_status_error_witness :
    isSuccessStatus 404 = false ∧
    (AllstacksMcp.AllstacksAPIClient.init "user" "pw"
        "https://api.allstacks.com/api/v1/").request
      "GET" "metrics/" [] none (.ok 404 "Not Found" (.error "decode")) =
      Json.obj [("error", Json.bool true),
                ("status_code", Json.num 404),
                ("message", Json.str ("HTTP error: " ++ "Not Found"))] :=
  ⟨rfl,
   (request_http_status_error
      (AllstacksMcp.AllstacksAPIClient.init "user" "pw"
        "https://api.allstacks.com/api/v1/")
      (Server.AllstacksAPIClient.init "token" "https://api.allstacks.com/api/v1/")
      "GET" "metrics/" [] none 404 "Not Found" (.error "decode") rfl).1⟩

/-- C3: when the request cannot be completed and httpx raises a transport
exception, both client variants return `{"error": true,
"message": "Request failed: " ++ <exception text>}`, a record with no
`status_code` key. -/
theorem request_transport_error (c1 : AllstacksMcp.AllstacksAPIClient)
    (c2 : Server.AllstacksAPIClient) (method endpoint : String)
    (params : List (String × ParamValue)) (data : Option Json) (msg : String) :
    c1.request method endpoint params data (.exn msg) =
      Json.obj [("error", Json.bool true),
                ("message", Json.str ("Request failed: " ++ msg))] ∧
    (c1.request method endpoint params data (.exn msg)).lookup "status_code"
      = none ∧
    c2.request method endpoint params data (.exn msg) =
      Json.obj [("error", Json.bool true),
                ("message", Json.str ("Request failed: " ++ msg))] ∧
    (c2.request method endpoint params data (.exn msg)).lookup "status_code"
      = none :=
  ⟨rfl, rfl, rfl, rfl⟩

/-- C4: on a 2xx response whose body decodes to JSON value `j`, both client
variants return exactly `j`, unmodified. -/
theorem request_success_passthrough (c1 : AllstacksMcp.AllstacksAPIClient)
    (c2 : Server.AllstacksAPIClient) (method endpoint : String)
    (params : List (String × ParamValue)) (data : Option Json)
    (status : Nat) (text : String) (j : Json)
    (h : isSuccessStatus status = true) :
    c1.request method endpoint params data (.ok status text (.ok j)) = j ∧
    c2.request method endpoint params data (.ok status text (.ok j)) = j := by
  constructor
  · simp [AllstacksMcp.AllstacksAPIClient.request, h]
  · simp [Server.AllstacksAPIClient.request, h]

/-- Witness for C4 at a concrete 200 response with body `{"a": 1}`. -/
theorem request_success_passthrough_witness :
    isSuccessStatus 200 = true ∧
    (AllstacksMcp.AllstacksAPIClient.init "user" "pw"
        "https://api.allstacks.com/api/v1/").request
      "GET" "metrics/" [] none
      (.ok 200 "ok" (.ok (Json.obj [("a", Json.num 1)]))) =
      Json.obj [("a", Json.num 1)] :=
  ⟨rfl,
   (request_success_passthrough
      (AllstacksMcp.AllstacksAPIClient.init "user" "pw"
        "https://api.allstacks.com/api/v1/")
      (Server.AllstacksAPIClient.init "token" "https://api.allstacks.com/api/v1/")
      "GET" "metrics/" [] none 200 "ok" (Json.obj [("a", Json.num 1)]) rfl).1⟩

/-- C5: when the caller-supplied JSON-string argument fails to decode, the
tool returns the local `Invalid JSON` error payload and issues no shim call;
this holds for `server.py get_metrics_v2_data` (the `config` argument) and
`alerts.py create_alert_rule` (the `condition` argument).  The last two
conjuncts show each payload's text literally begins with "Invalid JSON". -/
theorem invalid_json_local_error (jsonLoads : String → Except String Json)
    (project_id : Int) (config : String) (err : String)
    (h : jsonLoads config = Except.error err)
    (org_id : Int) (name alert_type : String) (rule_project : Option Int)
    (enabled : Bool) :
    (Server.get_metrics_v2_data jsonLoads project_id config =
        ToolAction.localError
          (Json.obj [("error", Json.str "Invalid JSON in config parameter")]) ∧
     (Server.get_metrics_v2_data jsonLoads project_id config).isCall = false) ∧
    (Alerts.create_alert_rule jsonLoads org_id name config alert_type
        rule_project enabled =
        ToolAction.localError
          (Json.obj [("error", Json.str "Invalid JSON in condition parameter")]) ∧
     (Alerts.create_alert_rule jsonLoads org_id name config alert_type
        rule_project enabled).isCall = false) ∧
    ("Invalid JSON in config parameter"
        = "Invalid JSON" ++ " in config parameter") ∧
    ("Invalid JSON in condition parameter"
        = "Invalid JSON" ++ " in condition parameter") := by
  refine ⟨⟨?_, ?_⟩, ⟨?_, ?_⟩, by decide, by decide⟩
  · simp [Server.get_metrics_v2_data, h]
  · simp [Server.get_metrics_v2_data, h, ToolAction.isCall]
  · simp [Alerts.create_alert_rule, h]
  · simp [Alerts.create_alert_rule, h, ToolAction.isCall]

/-- Witness for C5 on the concrete non-JSON string `"{bad"` (with a decoder
that rejects it, as `json.loads` does). -/
theorem invalid_json_local_error_witness :
    (fun _ : String => (Except.error "Expecting value" : Except String Json))
        "\x7bbad" = Except.error "Expecting value" ∧
    Server.get_metrics_v2_data
        (fun _ => Except.error "Expecting value") 7 "\x7bbad" =
      ToolAction.localError
        (Json.obj [("error", Json.str "Invalid JSON in config parameter")]) ∧
    (Alerts.create_alert_rule (fun _ => Except.error "Expecting value")
        3 "rule" "\x7bbad" "metric_threshold" none true).isCall = false :=
  ⟨rfl,
   (invalid_json_local_error (fun _ => Except.error "Expecting value")
      7 "\x7bbad" "Expecting value" rfl 3 "rule" "metric_threshold"
      none true).1.1,
   (invalid_json_local_error (fun _ => Except.error "Expecting value")
      7 "\x7bbad" "Expecting value" rfl 3 "rule" "metric_threshold"
      none true).2.1.2⟩

/-- C6 counterexample: the local JSON-validation error of
`server.py get_metrics_v2_data` is `{"error": "Invalid JSON in config
parameter"}` — its `error` field is a string, not the boolean `true`, and it
has no `message` field, so it does not conform to the normalized error-record
shape claimed for all non-success tool results. -/
theorem local_error_shape_counterexample :
    Server.get_metrics_v2_data
        (fun _ => Except.error "Expecting value") 7 "\x7bbad" =
      ToolAction.localError
        (Json.obj [("error", Json.str "Invalid JSON in config parameter")]) ∧
    (Json.obj [("error", Json.str "Invalid JSON in config parameter")]).lookup
        "error" ≠ some (Json.bool true) ∧
    (Json.obj [("error", Json.str "Invalid JSON in config parameter")]).lookup
        "message" = none := by
  refine ⟨rfl, ?_, rfl⟩
  intro hcontra
  simp [Json.lookup, List.lookup] at hcontra

/-- A JSON value of the normalized error-record shape: `error` is the boolean
`true`, `status_code` (when present) is an integer, `message` is a string. -/
def IsNormalizedError (j : Json) : Prop :=
  j.lookup "error" = some (Json.bool true) ∧
  (∀ v, j.lookup "status_code" = some v → ∃ n, v = Json.num n) ∧
  ∃ m, j.lookup "message" = some (Json.str m)

lemma isNormalizedError_statusRecord (status : Nat) (text : String) :
    IsNormalizedError (Json.obj [("error", Json.bool true),
      ("status_code", Json.num status),
      ("message", Json.str ("HTTP error: " ++ text))]) := by
  refine ⟨rfl, ?_, "HTTP error: " ++ text, rfl⟩
  intro v hv
  have hv2 : some (Json.num status) = some v := hv
  exact ⟨status, (Option.some.inj hv2).symm⟩

lemma isNormalizedError_transportRecord (msg : String) :
    IsNormalizedError (Json.obj [("error", Json.bool true),
      ("message", Json.str ("Request failed: " ++ msg))]) := by
  refine ⟨rfl, ?_, "Request failed: " ++ msg, rfl⟩
  intro v hv
  have hv2 : (none : Option Json) = some v := hv
  exact Option.noConfusion hv2

/-- C6 amended: upstream-status errors and transport errors from the shim (in
both client variants) conform to the normalized error-record shape
`{error: true, status_code?: integer, message: string}`; local JSON-validation
errors do NOT — they are `{"error": <string message>}` with no `message` and
no `status_code` key. -/
theorem error_record_shape_amended (c1 : AllstacksMcp.AllstacksAPIClient)
    (c2 : Server.AllstacksAPIClient) (method endpoint : String)
    (params : List (String × ParamValue)) (data : Option Json)
    (status : Nat) (text : String) (body : Except String Json) (msg : String)
    (jsonLoads : String → Except String Json) (project_id : Int)
    (config err : String)
    (hstat : isSuccessStatus status = false)
    (hjson : jsonLoads config = Except.error err) :
    IsNormalizedError
      (c1.request method endpoint params data (.ok status text body)) ∧
    IsNormalizedError (c1.request method endpoint params data (.exn msg)) ∧
    IsNormalizedError
      (c2.request method endpoint params data (.ok status text body)) ∧
    IsNormalizedError (c2.request method endpoint params data (.exn msg)) ∧
    Server.get_metrics_v2_data jsonLoads project_id config =
      ToolAction.localError
        (Json.obj [("error", Json.str "Invalid JSON in config parameter")]) := by
  refine ⟨?_, ?_, ?_, ?_, ?_⟩
  · have e : c1.request method endpoint params data (.ok status text body) =
        Json.obj [("error", Json.bool true),
                  ("status_code", Json.num status),
                  ("message", Json.str ("HTTP error: " ++ text))] := by
      simp [AllstacksMcp.AllstacksAPIClient.request, hstat]
    rw [e]; exact isNormalizedError_statusRecord status text
  · exact isNormalizedError_transportRecord msg
  · have e : c2.request method endpoint params data (.ok status text body) =
        Json.obj [("error", Json.bool true),
                  ("status_code", Json.num status),
                  ("message", Json.str ("HTTP error: " ++ text))] := by
      simp [Server.AllstacksAPIClient.request, hstat]
    rw [e]; exact isNormalizedError_statusRecord status text
  · exact isNormalizedError_transportRecord msg
  · simp [Server.get_metrics_v2_data, hjson]

/-- Witness for the amended C6 at a 404 response and a rejected config
string. -/
theorem error_record_shape_amended_witness :
    isSuccessStatus 404 = false ∧
    IsNormalizedError
      ((AllstacksMcp.AllstacksAPIClient.init "user" "pw"
          "https://api.allstacks.com/api/v1/").request
        "GET" "metrics/" [] none (.ok 404 "Not Found" (.error "decode"))) :=
  ⟨rfl,
   (error_record_shape_amended
      (AllstacksMcp.AllstacksAPIClient.init "user" "pw"
        "https://api.allstacks.com/api/v1/")
      (Server.AllstacksAPIClient.init "token" "https://api.allstacks.com/api/v1/")
      "GET" "metrics/" [] none 404 "Not Found" (.error "decode") "timeout"
      (fun _ => Except.error "Expecting value") 7 "\x7bbad" "Expecting value"
      rfl rfl).1⟩

/-- C7: for any base URL and endpoint, both client variants issue the request
to `rstrip(base_url, '/') ++ "/" ++ lstrip(endpoint, '/')` — exactly one
separating slash, since the stripped base never ends in `/` and the stripped
endpoint never starts with `/` — carrying exactly the two static
content-negotiation headers plus the configured credential (basic-auth pair
for `client.py`, bearer header for `server.py`); with no query parameters the
full URL carries no query string. -/
theorem build_request_url_headers (username password token base_url : String)
    (method endpoint : String) (data : Option Json) :
    ((AllstacksMcp.AllstacksAPIClient.init username password base_url).buildRequest
        method endpoint [] data).url
      = rstripSlash base_url ++ "/" ++ lstripSlash endpoint ∧
    ((AllstacksMcp.AllstacksAPIClient.init username password base_url).buildRequest
        method endpoint [] data).headers
      = [("Content-Type", "application/json"),
         ("Accept", "application/json")] ∧
    ((AllstacksMcp.AllstacksAPIClient.init username password base_url).buildRequest
        method endpoint [] data).auth = some (username, password) ∧
    ((AllstacksMcp.AllstacksAPIClient.init username password base_url).buildRequest
        method endpoint [] data).fullUrl
      = ((AllstacksMcp.AllstacksAPIClient.init username password base_url).buildRequest
          method endpoint [] data).url ∧
    ((Server.AllstacksAPIClient.init token base_url).buildRequest
        method endpoint [] data).url
      = rstripSlash base_url ++ "/" ++ lstripSlash endpoint ∧
    ((Server.AllstacksAPIClient.init token base_url).buildRequest
        method endpoint [] data).headers
      = [("Authorization", "Bearer " ++ token),
         ("Content-Type", "application/json"),
         ("Accept", "application/json")] ∧
    ((Server.AllstacksAPIClient.init token base_url).buildRequest
        method endpoint [] data).fullUrl
      = ((Server.AllstacksAPIClient.init token base_url).buildRequest
          method endpoint [] data).url ∧
    (rstripSlash base_url).data.getLast? ≠ some '/' ∧
    (lstripSlash endpoint).data.head? ≠ some '/' :=
  ⟨rfl, rfl, rfl, string_append_empty _, rfl, rfl, string_append_empty _,
   rstripSlash_getLast base_url, lstripSlash_head endpoint⟩

/-- C8: optional parameters the caller omits produce no key at all in the
query mapping or JSON body: `get_gmdts_data` without `dimensions`/`group_by`/
`filters` builds exactly the four mandatory query entries;
`get_parent_service_items` with every optional omitted builds exactly its two
mandatory entries; `create_alert_rule` without `project_id` builds a body with
exactly the four mandatory keys and no `project_id` key. -/
theorem omitted_params_absent (project_id : Int)
    (metric_type start_date end_date aggregation : String) (limit : Int)
    (time_zone order_direction : String)
    (jsonLoads : String → Except String Json) (org_id : Int)
    (name condition alert_type : String) (enabled : Bool)
    (condition_dict : Json)
    (h : jsonLoads condition = Except.ok condition_dict) :
    (Server.get_gmdts_data project_id metric_type start_date end_date
        none none aggregation none limit).params
      = [("start_date", ParamValue.str start_date),
         ("end_date", ParamValue.str end_date),
         ("aggregation", ParamValue.str aggregation),
         ("limit", ParamValue.num limit)] ∧
    List.lookup "dimensions" (Server.get_gmdts_data project_id metric_type
        start_date end_date none none aggregation none limit).params = none ∧
    List.lookup "group_by" (Server.get_gmdts_data project_id metric_type
        start_date end_date none none aggregation none limit).params = none ∧
    List.lookup "filters" (Server.get_gmdts_data project_id metric_type
        start_date end_date none none aggregation none limit).params = none ∧
    (ServiceItems.get_parent_service_items project_id none none none none
        none none time_zone none none order_direction none none none).params
      = [("time_zone", ParamValue.str time_zone),
         ("order_direction", ParamValue.str order_direction)] ∧
    (Alerts.create_alert_rule jsonLoads org_id name condition alert_type
        none enabled).body
      = some (Json.obj [("name", Json.str name),
                        ("condition", condition_dict),
                        ("alert_type", Json.str alert_type),
                        ("enabled", Json.bool enabled)]) ∧
    (Json.obj [("name", Json.str name),
               ("condition", condition_dict),
               ("alert_type", Json.str alert_type),
               ("enabled", Json.bool enabled)]).lookup "project_id" = none := by
  refine ⟨rfl, rfl, rfl, rfl, rfl, ?_, rfl⟩
  simp [Alerts.create_alert_rule, h, ToolAction.body]

/-- Witness for C8 with a concrete decoder accepting the condition string. -/
theorem omitted_params_absent_witness :
    (fun _ : String => (Except.ok Json.null : Except String Json))
        "\x7b\x7d" = Except.ok Json.null ∧
    (Server.get_gmdts_data 5 "commits" "2024-01-01" "2024-02-01"
        none none "sum" none 1000).params
      = [("start_date", ParamValue.str "2024-01-01"),
         ("end_date", ParamValue.str "2024-02-01"),
         ("aggregation", ParamValue.str "sum"),
         ("limit", ParamValue.num 1000)] :=
  ⟨rfl,
   (omitted_params_absent 5 "commits" "2024-01-01" "2024-02-01" "sum" 1000
      "UTC" "desc" (fun _ => Except.ok Json.null) 3 "rule" "\x7b\x7d"
      "metric_threshold" true Json.null rfl).1⟩

/-- C9: a non-empty comma-separated list argument is placed in the query
mapping under the bracket-suffixed key, mapped to the comma-split list
(`get_forecast_v3`'s `work_bundle_ids`/`service_item_ids` and
`get_parent_service_items`' `fields`); the last conjunct shows the wire
encoding of such a list value is the repeated-key form `k=a&k=b`. -/
theorem list_params_bracket_split (project_id : Int)
    (work_bundle_ids service_item_ids : String) (confidence_level : Int)
    (time_zone fields order_direction : String)
    (h1 : work_bundle_ids ≠ "") (h2 : service_item_ids ≠ "")
    (h3 : fields ≠ "") (k a b : String) :
    List.lookup "work_bundle_ids[]"
        (Forecasting.get_forecast_v3 project_id (some work_bundle_ids)
          (some service_item_ids) confidence_level time_zone).params
      = some (ParamValue.list (splitOnComma work_bundle_ids)) ∧
    List.lookup "service_item_ids[]"
        (Forecasting.get_forecast_v3 project_id (some work_bundle_ids)
          (some service_item_ids) confidence_level time_zone).params
      = some (ParamValue.list (splitOnComma service_item_ids)) ∧
    List.lookup "fields[]"
        (ServiceItems.get_parent_service_items project_id none none none none
          none none time_zone none none order_direction none none
          (some fields)).params
      = some (ParamValue.list (splitOnComma fields)) ∧
    encodeParam k (ParamValue.list [a, b])
      = k ++ "=" ++ a ++ "&" ++ (k ++ "=" ++ b) := by
  refine ⟨?_, ?_, ?_, ?_⟩
  · simp [Forecasting.get_forecast_v3, addSplitOpt, h1, h2,
      ToolAction.params, List.lookup]
  · simp [Forecasting.get_forecast_v3, addSplitOpt, h1, h2,
      ToolAction.params, List.lookup]
  · simp [ServiceItems.get_parent_service_items, addSplitOpt, addStrOpt,
      addIntOpt, addIntIfNotNone, h3, ToolAction.params, List.lookup]
  · simp [encodeParam, String.intercalate, String.intercalate.go]

/-- Witness for C9 on concrete comma-separated arguments. -/
theorem list_params_bracket_split_witness :
    ("1,2" : String) ≠ "" ∧ ("3" : String) ≠ "" ∧
    ("state,url" : String) ≠ "" ∧
    List.lookup "work_bundle_ids[]"
        (Forecasting.get_forecast_v3 9 (some "1,2") (some "3") 80 "UTC").params
      = some (ParamValue.list (splitOnComma "1,2")) ∧
    splitOnComma "1,2" = ["1", "2"] :=
  ⟨by decide, by decide, by decide,
   (list_params_bracket_split 9 "1,2" "3" 80 "UTC" "state,url" "desc"
      (by decide) (by decide) (by decide) "k" "a" "b").1,
   by decide⟩

/-- C10: a falsy value for a truthiness-guarded optional parameter produces
exactly the same tool action as omitting the parameter: `server.py
list_metrics` with `org_id = 0`, `server.py get_configuration_options` with
`metric = 0` and `item_types = ""`, and `metrics.py list_metrics` with
`project_id = 0` each equal the fully-omitted call. -/
theorem falsy_equals_omitted (org_id : Int) :
    Server.list_metrics (some 0) = Server.list_metrics none ∧
    Server.get_configuration_options org_id (some 0) (some "") =
      Server.get_configuration_options org_id none none ∧
    Metrics.list_metrics (some 0) = Metrics.list_metrics none :=
  ⟨rfl, rfl, rfl⟩
